import Mathlib

/-!
Verification development for the freshness-gated caching and resilient-fetch
layer of a sports-schedule service (sources under `src/kbo-mcp/src/kbo/`).

Modelling conventions:
* Clock readings (`datetime.utcnow`, `time.monotonic`) are integers supplied
  as explicit parameters; the db layer counts minutes, the realtime layer
  counts seconds.  Sleeping is modelled as advancing the clock by exactly the
  requested wait.
* SQLite state is a record: the `schedules` table is a list of rows in rowid
  order, the `month_cache` table is a finite map realised as a function
  (its primary key guarantees at most one row per key).
* External collaborators (the Playwright scrapers) are oracles: a collection
  attempt is an `Except` value, a detail fetch is a list of per-attempt
  `Except` outcomes.
* Fallible Python code is embedded with `Except`/`Option` results; a Python
  exception that propagates is an `Except.error`.
-/

/-- One schedule row; source: `db.py`, dataclass `GameRow` and the
`schedules` table. -/
structure GameRow where
  game_date : String
  time : Option String
  away : String
  home : String
  away_score : Option Int
  home_score : Option Int
  stadium : Option String
  tv : Option String
  radio : Option String
  note : Option String
  game_id : Option String
  gamecenter_url : Option String
  fetched_at : String
deriving DecidableEq

/-- The persistent store; source: `db.py`, tables `schedules` and
`month_cache` created by `init_db`.  `month_cache` maps a
(year, month, series) key to the recorded `fetched_at` instant (minutes). -/
structure Db where
  schedules : List GameRow
  month_cache : Int × Int × String → Option Int

/-- Source: `db.py`, `upsert_month_cache` — `INSERT … ON CONFLICT(year,
month, series) DO UPDATE SET fetched_at=excluded.fetched_at`. -/
def upsert_month_cache (db : Db) (year month : Int) (series : String)
    (fetched_at : Int) : Db :=
  { db with
    month_cache := fun k =>
      if k = (year, month, series) then some fetched_at else db.month_cache k }

/-- Source: `db.py`, `is_month_cache_fresh`.  `now` stands for
`datetime.utcnow()`; the stored instant stands for the parsed `fetched_at`
column.  Default TTL `60 * 12` minutes as in the source. -/
def is_month_cache_fresh (db : Db) (year month : Int) (series : String)
    (now : Int) (ttl_minutes : Int := 60 * 12) : Bool :=
  match db.month_cache (year, month, series) with
  | none => false
  | some last => now - last < ttl_minutes

/-- SQLite semantics of the unique index `idx_schedules_unique_game` on
`(game_date, time, away, home, COALESCE(game_id, ''))`: two rows collide
exactly when all five indexed values are pairwise equal and non-NULL.
`time` is the only indexed expression that can be NULL, and SQL NULL is
distinct from every value, including another NULL. -/
def sameIndexKey (a b : GameRow) : Bool :=
  a.game_date = b.game_date &&
  (match a.time, b.time with
   | some t1, some t2 => t1 = t2
   | _, _ => false) &&
  a.away = b.away && a.home = b.home &&
  a.game_id.getD "" = b.game_id.getD ""

/-- One `INSERT OR IGNORE` into `schedules`: the row is dropped when it
collides with an existing row on the unique index, otherwise appended. -/
def insert_game (db : Db) (g : GameRow) : Db :=
  if db.schedules.any (fun r => sameIndexKey r g) then db
  else { db with schedules := db.schedules ++ [g] }

/-- Source: `db.py`, `insert_games` — `executemany` of `INSERT OR IGNORE`,
one row at a time in order. -/
def insert_games (db : Db) (games : List GameRow) : Db :=
  games.foldl insert_game db

/-- Observable store operations performed by one run of the schedule cache
manager, in order: invoking the source collector, inserting the collected
rows, stamping the bucket freshness. -/
inductive DbOp
  | collect
  | insert
  | stamp
deriving DecidableEq

/-- Result of one `ensure_month_cached_async` run: the store afterwards, the
propagated failure if any, and the trace of store operations performed. -/
structure EnsureOut where
  db : Db
  error : Option String
  trace : List DbOp

/-- Source: `service.py`, `ensure_month_cached_async`.  `now` is the
`datetime.utcnow()` reading used by the freshness check, `fin` the one taken
at the `upsert_month_cache` call after collection; `collector` is the
outcome of `scrape_month_schedule` (an exception propagates unchanged, so
the run then performs no store write). -/
def ensure_month_cached_async (db : Db) (year month : Int)
    (series : String := "0,9,6") (now fin : Int)
    (collector : Except String (List GameRow)) : EnsureOut :=
  if is_month_cache_fresh db year month series now then
    ⟨db, none, []⟩
  else
    match collector with
    | Except.error e => ⟨db, some e, [DbOp.collect]⟩
    | Except.ok games =>
        ⟨upsert_month_cache (insert_games db games) year month series fin,
         none, [DbOp.collect, DbOp.insert, DbOp.stamp]⟩

/-- Number of source-collector invocations recorded in a trace. -/
def countCollect (t : List DbOp) : Nat := t.count DbOp.collect

theorem ensure_of_fresh {db : Db} {year month : Int} {series : String}
    {now : Int} (fin : Int) (collector : Except String (List GameRow))
    (h : is_month_cache_fresh db year month series now = true) :
    ensure_month_cached_async db year month series now fin collector =
      ⟨db, none, []⟩ := by
  unfold ensure_month_cached_async
  simp only [h]
  simp

theorem ensure_of_stale_error {db : Db} {year month : Int} {series : String}
    {now : Int} (fin : Int) {e : String}
    (h : is_month_cache_fresh db year month series now = false) :
    ensure_month_cached_async db year month series now fin
      (Except.error e) = ⟨db, some e, [DbOp.collect]⟩ := by
  unfold ensure_month_cached_async
  simp only [h]
  simp

theorem ensure_of_stale_ok {db : Db} {year month : Int} {series : String}
    {now : Int} (fin : Int) {games : List GameRow}
    (h : is_month_cache_fresh db year month series now = false) :
    ensure_month_cached_async db year month series now fin
      (Except.ok games) =
      ⟨upsert_month_cache (insert_games db games) year month series fin,
        none, [DbOp.collect, DbOp.insert, DbOp.stamp]⟩ := by
  unfold ensure_month_cached_async
  simp only [h]
  simp

theorem countCollect_le_one (db : Db) (year month : Int) (series : String)
    (now fin : Int) (collector : Except String (List GameRow)) :
    countCollect (ensure_month_cached_async db year month series now fin
      collector).trace ≤ 1 := by
  rcases h : is_month_cache_fresh db year month series now with _ | _
  · cases collector with
    | error e => rw [ensure_of_stale_error fin h]; simp [countCollect]
    | ok games => rw [ensure_of_stale_ok fin h]; simp [countCollect]
  · rw [ensure_of_fresh fin collector h]; simp [countCollect]

/-- Claim C1: if the bucket's freshness record exists and `now` minus the
last-collected instant is below the TTL (default 12 hours = 720 minutes),
`ensure_month_cached_async` is a pure store read: it performs no operation
and returns the store unchanged.  Consequently two calls whose second
happens within one TTL window of the first successful call invoke the
source collector at most once in total. -/
theorem C1_fresh_bucket_pure_read :
    (∀ (db : Db) (year month : Int) (series : String) (now fin last : Int)
      (collector : Except String (List GameRow)),
      db.month_cache (year, month, series) = some last →
      now - last < 720 →
      ensure_month_cached_async db year month series now fin collector =
        ⟨db, none, []⟩) ∧
    (∀ (db : Db) (year month : Int) (series : String)
      (now1 fin1 now2 fin2 : Int)
      (c1 c2 : Except String (List GameRow)),
      (ensure_month_cached_async db year month series now1 fin1 c1).error =
        none →
      now2 - fin1 < 720 →
      countCollect
          (ensure_month_cached_async db year month series now1 fin1 c1).trace
        + countCollect
          (ensure_month_cached_async
            (ensure_month_cached_async db year month series now1 fin1 c1).db
            year month series now2 fin2 c2).trace ≤ 1) := by
  constructor
  · intro db year month series now fin last collector hlast hfresh
    refine ensure_of_fresh fin collector ?_
    simp [is_month_cache_fresh, hlast, hfresh]
  · intro db year month series now1 fin1 now2 fin2 c1 c2 herr hwin
    rcases hfresh : is_month_cache_fresh db year month series now1 with _ | _
    · cases c1 with
      | error e =>
          rw [ensure_of_stale_error fin1 hfresh] at herr
          simp at herr
      | ok games =>
          rw [ensure_of_stale_ok fin1 hfresh]
          have hfresh2 : is_month_cache_fresh
              (upsert_month_cache (insert_games db games) year month series
                fin1) year month series now2 = true := by
            simp [is_month_cache_fresh, upsert_month_cache, hwin]
          rw [ensure_of_fresh fin2 c2 hfresh2]
          simp [countCollect, List.count_cons]
    · rw [ensure_of_fresh fin1 c1 hfresh]
      simpa [countCollect] using
        countCollect_le_one db year month series now2 fin2 c2

/-- Witness for C1 at concrete inputs: a store whose bucket was stamped at
minute 0, queried at minute 10 (within the 720-minute TTL). -/
theorem C1_fresh_bucket_pure_read_witness :
    ensure_month_cached_async
      ⟨[], fun k => if k = (2025, 3, "0,9,6") then some 0 else none⟩
      2025 3 "0,9,6" 10 10 (Except.ok []) =
      ⟨⟨[], fun k => if k = (2025, 3, "0,9,6") then some 0 else none⟩,
        none, []⟩ :=
  C1_fresh_bucket_pure_read.1
    ⟨[], fun k => if k = (2025, 3, "0,9,6") then some 0 else none⟩
    2025 3 "0,9,6" 10 10 0 (Except.ok []) (by simp) (by decide)

/-- Claim C3: within one `ensure_month_cached_async` run the freshness stamp
is written only after the collected records (the only possible traces are
the empty one, collect-only, and collect–insert–stamp); on collector failure
the store — in particular the `month_cache` relation — is left unchanged and
the failure propagates to the caller. -/
theorem C3_stamp_after_insert_and_failure_propagates :
    (∀ (db : Db) (year month : Int) (series : String) (now fin : Int)
      (collector : Except String (List GameRow)),
      (ensure_month_cached_async db year month series now fin
          collector).trace = [] ∨
      (ensure_month_cached_async db year month series now fin
          collector).trace = [DbOp.collect] ∨
      (ensure_month_cached_async db year month series now fin
          collector).trace = [DbOp.collect, DbOp.insert, DbOp.stamp]) ∧
    (∀ (db : Db) (year month : Int) (series : String) (now fin : Int)
      (e : String),
      is_month_cache_fresh db year month series now = false →
      ensure_month_cached_async db year month series now fin
        (Except.error e) = ⟨db, some e, [DbOp.collect]⟩) ∧
    (∀ (db : Db) (year month : Int) (series : String) (now fin : Int)
      (games : List GameRow),
      is_month_cache_fresh db year month series now = false →
      ensure_month_cached_async db year month series now fin
        (Except.ok games) =
        ⟨upsert_month_cache (insert_games db games) year month series fin,
          none, [DbOp.collect, DbOp.insert, DbOp.stamp]⟩) := by
  refine ⟨?_, ?_, ?_⟩
  · intro db year month series now fin collector
    rcases h : is_month_cache_fresh db year month series now with _ | _
    · cases collector with
      | error e => rw [ensure_of_stale_error fin h]; simp
      | ok games => rw [ensure_of_stale_ok fin h]; simp
    · rw [ensure_of_fresh fin collector h]; simp
  · intro db year month series now fin e h
    exact ensure_of_stale_error fin h
  · intro db year month series now fin games h
    exact ensure_of_stale_ok fin h

/-- Witness for C3 at concrete inputs: an empty store (no freshness row, so
the bucket is stale) and a failing collector; the run leaves the store
unchanged, reports the error and stamps nothing. -/
theorem C3_stamp_after_insert_and_failure_propagates_witness :
    ensure_month_cached_async ⟨[], fun _ => none⟩ 2025 3 "0,9,6" 10 10
      (Except.error "net down") =
      ⟨⟨[], fun _ => none⟩, some "net down", [DbOp.collect]⟩ :=
  C3_stamp_after_insert_and_failure_propagates.2.1
    ⟨[], fun _ => none⟩ 2025 3 "0,9,6" 10 10 "net down" (by simp [is_month_cache_fresh])

/-- A concrete row with a NULL `time`: the unique index does not deduplicate
it because SQL NULL compares unequal to NULL. -/
def gNullTime : GameRow :=
  ⟨"2025-03-30", none, "LG", "OB", none, none, some "Jamsil", none, none,
    none, some "20250330LGOB0", some "u", "t0"⟩

/-- An empty store. -/
def emptyDb : Db := ⟨[], fun _ => none⟩

/-- Counterexample to claim C4 as stated: inserting the identical logical
event twice — equal date, (NULL) time, participants and identifier — leaves
two records in the store, not exactly one, because the unique index compares
the NULL `time` columns as distinct. -/
theorem C4_counterexample :
    (insert_games emptyDb [gNullTime, gNullTime]).schedules.length = 2 ∧
    (insert_games emptyDb [gNullTime, gNullTime]).schedules.length ≠ 1 := by
  constructor
  · rfl
  · decide

/-- Claim C4 (amended): for an event whose scheduled `time` is non-null,
inserting the same logical event twice — identical (date, time, away, home,
external-identifier-or-empty) — is a silent no-op, never an error: the
second insert returns the store produced by the first one, and in an empty
store the pair of inserts leaves exactly one record.  (With a NULL `time`
the SQLite unique index treats the two rows as distinct and a duplicate is
stored, see the counterexample.) -/
theorem C4_insert_idempotent_nonnull_time :
    (∀ (db : Db) (g : GameRow) (t : String), g.time = some t →
      insert_game (insert_game db g) g = insert_game db g) ∧
    (∀ (g : GameRow) (t : String), g.time = some t →
      (insert_games emptyDb [g, g]).schedules = [g]) := by
  have key_self : ∀ (g : GameRow) (t : String), g.time = some t →
      sameIndexKey g g = true := by
    intro g t ht
    simp [sameIndexKey, ht]
  have step : ∀ (db : Db) (g : GameRow) (t : String), g.time = some t →
      insert_game (insert_game db g) g = insert_game db g := by
    intro db g t ht
    by_cases h : db.schedules.any (fun r => sameIndexKey r g) = true
    · have h1 : insert_game db g = db := by simp [insert_game, h]
      rw [h1, h1]
    · have h1 : insert_game db g =
          { db with schedules := db.schedules ++ [g] } := by
        unfold insert_game
        rw [if_neg h]
      rw [h1]
      have h2 : ({ db with schedules := db.schedules ++ [g] } :
          Db).schedules.any (fun r => sameIndexKey r g) = true := by
        simp [List.any_append]
        exact Or.inr (key_self g t ht)
      simp [insert_game, h2]
  refine ⟨step, ?_⟩
  intro g t ht
  have h0 : insert_game emptyDb g =
      { emptyDb with schedules := [g] } := by
    simp [insert_game, emptyDb]
  calc (insert_games emptyDb [g, g]).schedules
      = (insert_game (insert_game emptyDb g) g).schedules := rfl
    _ = (insert_game emptyDb g).schedules := by rw [step emptyDb g t ht]
    _ = [g] := by rw [h0]

/-- Witness for C4 (amended) at a concrete timed row. -/
theorem C4_insert_idempotent_nonnull_time_witness :
    (insert_games emptyDb
      [{ gNullTime with time := some "18:30" },
       { gNullTime with time := some "18:30" }]).schedules =
      [{ gNullTime with time := some "18:30" }] :=
  C4_insert_idempotent_nonnull_time.2
    { gNullTime with time := some "18:30" } "18:30" rfl

/-- Sort key for the `time` column under SQLite ascending `ORDER BY`
semantics: NULL sorts before every value, TEXT values compare under the
BINARY collation, i.e. bytewise, which on these ASCII strings coincides
with code-point order on the character list. -/
def timeKey : Option String → Nat × List Char
  | none => (0, [])
  | some t => (1, t.toList)

/-- Three-way comparison realising `ORDER BY time, away, home` from
`get_games_by_date` in `db.py`: lexicographic on the time key, then the
`away` text, then the `home` text. -/
def rowCmp : GameRow → GameRow → Ordering :=
  compareLex (Ordering.byKey (fun r : GameRow => timeKey r.time)
      (@compare _ lexOrd))
    (compareLex (Ordering.byKey (fun r : GameRow => r.away.toList) compare)
      (Ordering.byKey (fun r : GameRow => r.home.toList) compare))

/-- The non-strict order induced by `rowCmp`. -/
def rowLe (a b : GameRow) : Bool := rowCmp a b ≠ Ordering.gt

instance : Batteries.TransCmp (@compare (Nat × List Char) lexOrd) :=
  Batteries.TransOrd.instLexOrd

instance : Batteries.TransCmp rowCmp :=
  inferInstanceAs (Batteries.TransCmp
    (compareLex (Ordering.byKey (fun r : GameRow => timeKey r.time)
        (@compare _ lexOrd))
      (compareLex (Ordering.byKey (fun r : GameRow => r.away.toList) compare)
        (Ordering.byKey (fun r : GameRow => r.home.toList) compare))))

instance : IsTrans GameRow (fun a b => rowLe a b = true) := by
  constructor
  intro a b c hab hbc
  simp only [rowLe, decide_eq_true_eq] at hab hbc ⊢
  exact Batteries.TransCmp.le_trans hab hbc

instance : IsTotal GameRow (fun a b => rowLe a b = true) := by
  constructor
  intro a b
  simp only [rowLe, decide_eq_true_eq]
  rcases h : rowCmp a b with _ | _ | _
  · left; simp [h]
  · left; simp [h]
  · right
    have := Batteries.OrientedCmp.cmp_eq_gt.mp h
    simp [this]

/-- Source: `db.py`, `get_games_by_date` — `SELECT * FROM schedules WHERE
game_date=? ORDER BY time, away, home`.  The selection keeps exactly the
rows of the queried date; the ordering is modelled by a stable sort with
the `ORDER BY` comparator. -/
def get_games_by_date (db : Db) (date_yyyy_mm_dd : String) : List GameRow :=
  List.insertionSort (fun a b => rowLe a b = true)
    (db.schedules.filter (fun r => r.game_date = date_yyyy_mm_dd))

/-- Example row: a game on 2025-03-30 with a NULL scheduled time. -/
def gA : GameRow :=
  ⟨"2025-03-30", none, "A", "B", none, none, none, none, none, none,
    some "idA", some "uA", "t0"⟩

/-- Example row: a game on 2025-03-30 scheduled at 18:30. -/
def gB : GameRow :=
  ⟨"2025-03-30", some "18:30", "C", "D", none, none, none, none, none, none,
    some "idB", some "uB", "t0"⟩

/-- Example row: a game on 2025-03-30 scheduled at 14:00. -/
def gC : GameRow :=
  ⟨"2025-03-30", some "14:00", "E", "F", none, none, none, none, none, none,
    some "idC", some "uC", "t0"⟩

/-- Example row on a different date, to exercise the date filter. -/
def gOther : GameRow :=
  ⟨"2025-03-31", some "10:00", "G", "H", none, none, none, none, none, none,
    some "idO", some "uO", "t0"⟩

/-- Example store holding the four rows in scrambled insertion order. -/
def exampleDb : Db := ⟨[gB, gOther, gA, gC], fun _ => none⟩

/-- Claim C6: `get_games_by_date` returns exactly the stored rows of the
queried date, sorted by the `(time, away, home)` comparator; under that
comparator every NULL-time row sorts strictly before every timed row; on
the example store with times NULL, "18:30", "14:00" the result comes back
as NULL, "14:00", "18:30". -/
theorem C6_date_query_ordering :
    (∀ (db : Db) (d : String),
      (get_games_by_date db d).Perm
        (db.schedules.filter (fun r => r.game_date = d))) ∧
    (∀ (db : Db) (d : String),
      List.Pairwise (fun a b => rowLe a b = true)
        (get_games_by_date db d)) ∧
    (∀ a b : GameRow, a.time = none → ∀ t : String, b.time = some t →
      rowLe a b = true ∧ rowLe b a = false) ∧
    get_games_by_date exampleDb "2025-03-30" = [gA, gC, gB] := by
  refine ⟨?_, ?_, ?_, ?_⟩
  · intro db d
    exact List.perm_insertionSort _ _
  · intro db d
    exact List.sorted_insertionSort _ _
  · intro a b ha t hb
    have h01 : compare (0 : Nat) 1 = Ordering.lt := by decide
    have h10 : compare (1 : Nat) 0 = Ordering.gt := by decide
    have hcmp : rowCmp a b = Ordering.lt := by
      simp [rowCmp, compareLex, Ordering.byKey, timeKey, ha, hb, lexOrd,
        compareOn]
      rw [h01]
      rfl
    have hcmp2 : rowCmp b a = Ordering.gt := by
      simp [rowCmp, compareLex, Ordering.byKey, timeKey, ha, hb, lexOrd,
        compareOn]
      rw [h10]
      rfl
    constructor
    · simp [rowLe, hcmp]
    · simp [rowLe, hcmp2]
  · decide

/-- Witness for C6 at concrete rows: the NULL-time row `gA` sorts strictly
before the 18:30 row `gB`. -/
theorem C6_date_query_ordering_witness :
    rowLe gA gB = true ∧ rowLe gB gA = false :=
  C6_date_query_ordering.2.2.1 gA gB rfl "18:30" rfl

/-- Python's `str.isdigit` on one character, modelled for the character
classes exercised by the claims: the ASCII decimal digits plus the
compatibility superscript digits ¹ ² ³, which satisfy `isdigit` although
`int()` rejects them. -/
def pyIsDigit (c : Char) : Bool :=
  c.isDigit || c = '¹' || c = '²' || c = '³'

/-- Python `int()` applied to the joined digit characters: succeeds exactly
on non-empty strings of decimal digits (yielding the base-10 value) and
raises `ValueError` otherwise — in particular on superscript digits. -/
def pyIntOfDigits (digits : List Char) : Option Nat :=
  if digits ≠ [] && digits.all Char.isDigit then
    some (digits.foldl (fun n c => 10 * n + (c.toNat - '0'.toNat)) 0)
  else none

/-- Source: `realtime_playwright.py`, `_parse_int`.  `if not text` is
Python truthiness, covering both `None` and the empty string; the digits
kept by the `isdigit` filter are then fed to `int`, whose `ValueError`
propagates as `Except.error`. -/
def _parse_int (text : Option String) : Except String (Option Nat) :=
  match text with
  | none => Except.ok none
  | some s =>
      if s = "" then Except.ok none
      else
        let digits := s.toList.filter pyIsDigit
        if digits = [] then Except.ok none
        else
          match pyIntOfDigits digits with
          | some n => Except.ok (some n)
          | none => Except.error "ValueError"

/-- Source: `realtime_playwright.py`, `_total_from_line`: parse every cell,
drop the failures-to-parse (`None`s), return the last number if any.  An
exception from `_parse_int` propagates. -/
def _total_from_line (row : List String) : Except String (Option Nat) := do
  let parsed ← row.mapM (fun x => _parse_int (some x))
  pure (parsed.filterMap id).getLast?

/-- Source: `realtime_playwright.py`, `_derive_metrics`.  The returned
value is the `run_diff` entry of the produced dict: the first row's total
minus the second row's, `none` («unknown») when the table has fewer than
two rows or either total is missing.  Exceptions from `_total_from_line`
propagate. -/
def _derive_metrics (linescore : List (List String)) :
    Except String (Option Int) :=
  match linescore with
  | r0 :: r1 :: _ =>
      match _total_from_line r0 with
      | Except.error e => Except.error e
      | Except.ok away_total =>
          match _total_from_line r1 with
          | Except.error e => Except.error e
          | Except.ok home_total =>
              match away_total, home_total with
              | some a, some h => Except.ok (some ((a : Int) - (h : Int)))
              | _, _ => Except.ok none
  | _ => Except.ok none

/-- Claim C7, settled against the code: on the spec's example table the
differential is `3 - 2 = 1`; the empty and one-row tables yield the unknown
result; extraction takes the last numeric token of a row.  But the function
is not total: on the row `["²"]` the `isdigit` filter keeps the superscript
digit and `int()` then raises `ValueError`, so `_derive_metrics` raises
instead of returning unknown — contradicting the claimed never-raises
contract. -/
theorem C7_derive_metrics_eval :
    _derive_metrics [["1", "0", "2", "3"], ["0", "1", "1", "2"]] =
      Except.ok (some 1) ∧
    _derive_metrics [] = Except.ok none ∧
    _derive_metrics [["1", "0", "2", "3"]] = Except.ok none ∧
    _total_from_line ["7", "x", "12"] = Except.ok (some 12) ∧
    _derive_metrics [["²"], ["1"]] = Except.error "ValueError" := by
  refine ⟨?_, ?_, ?_, ?_, ?_⟩ <;> rfl

/-- Result of one detail fetch; source: `realtime_playwright.py`, dataclass
`FetchResult`.  `fetched_at` is the `_now_iso()` wall-clock reading,
supplied to the model as a parameter. -/
structure FetchResult (α : Type) where
  data : Option α
  fetched_at : Int
  stale : Bool
  error : Option String
deriving DecidableEq

/-- The module-level mutable state of `realtime_playwright.py`: `_CACHE`
maps a URL key to (monotonic store instant, payload); `_LAST_CALL` maps a
detail kind to the monotonic instant of its last dispatched request. -/
structure RealtimeState (α : Type) where
  cache : String → Option (Int × α)
  lastCall : String → Option Int

/-- Source: `_TTL_SECONDS = 20`. -/
def _TTL_SECONDS : Int := 20

/-- Source: `_MIN_INTERVAL = 1.0` (seconds). -/
def _MIN_INTERVAL : Int := 1

/-- Whether `pat` is a prefix of `s`, on character lists. -/
def startsWithChars : List Char → List Char → Bool
  | _, [] => true
  | [], _ :: _ => false
  | c :: cs, p :: ps => c = p && startsWithChars cs ps

/-- Whether `pat` occurs contiguously in `s`, on character lists. -/
def hasSubstrChars : List Char → List Char → Bool
  | [], pat => pat.isEmpty
  | c :: cs, pat => startsWithChars (c :: cs) pat || hasSubstrChars cs pat

/-- Python's `pat in s` substring test on strings. -/
def hasSubstr (s pat : String) : Bool :=
  hasSubstrChars s.toList pat.toList

/-- URL-key construction shared by `_scrape_review` (section `REVIEW`,
lines 105–110) and `_scrape_lineup` (section `PREVIEW`, lines 175–180): if
the reference already contains the text `section=` it is used unchanged,
otherwise the section query parameter is appended after `&` or `?`. -/
def sectionUrl (url : String) (sec : String) : String :=
  if hasSubstr url "section=" then url
  else url ++ (if hasSubstr url "?" then "&" else "?") ++ "section=" ++ sec

/-- The sleep performed by `_rate_limit`: `wait = _MIN_INTERVAL - (now -
last)`, slept only when positive; no wait when the kind was never
dispatched. -/
def rateLimitWait (last : Option Int) (now : Int) : Int :=
  match last with
  | none => 0
  | some t => max (_MIN_INTERVAL - (now - t)) 0

/-- Source: `_rate_limit` — reads `_LAST_CALL[key]`, sleeps the remaining
interval when positive, then stamps `_LAST_CALL[key]` with a fresh
monotonic reading (modelled as `now + wait`).  Returns the sleep duration
and the updated map. -/
def _rate_limit (lastCall : String → Option Int) (key : String)
    (now : Int) : Int × (String → Option Int) :=
  let wait := rateLimitWait (lastCall key) now
  (wait, fun k => if k = key then some (now + wait) else lastCall k)

/-- The `for _ in range(3)` retry loop of the scrapers: `oracle` lists each
attempt's outcome in order and the loop stops at the first success.
Returns the successful payload if any, the last-seen error text, and the
number of attempts dispatched. -/
def attemptLoop {α : Type} :
    List (Except String α) → Option String →
      Option α × Option String × Nat
  | [], lastErr => (none, lastErr, 0)
  | Except.ok d :: _, lastErr => (some d, lastErr, 1)
  | Except.error e :: rest, _ =>
      let r := attemptLoop rest (some e)
      (r.1, r.2.1, r.2.2 + 1)

/-- Python's `last_err or "scrape_failed"`: `or` falls through both on
`None` and on the empty string. -/
def orScrapeFailed : Option String → String
  | none => "scrape_failed"
  | some e => if e = "" then "scrape_failed" else e

/-- Everything observable about one `_scrape_review` / `_scrape_lineup`
call: the returned `FetchResult`, the module state afterwards, the number
of fetch attempts dispatched to the source, and whether the rate limiter
was consulted. -/
structure ScrapeOut (α : Type) where
  result : FetchResult α
  cache : String → Option (Int × α)
  lastCall : String → Option Int
  dispatched : Nat
  rateLimited : Bool

/-- Cache-miss path shared by the two scrapers (lines 117–158 and
187–222): rate-limit on `kind`, run up to three attempts; on success store
the payload under `key` at instant `fin` and return it not-stale; on
exhaustion fall back to the cache entry however old, marked stale with the
last-seen error, or — with no entry — report no payload, stale, with the
error or the generic `scrape_failed`. -/
def scrapeMiss {α : Type} (key kind : String) (now fin wall : Int)
    (st : RealtimeState α) (oracle : List (Except String α)) :
    ScrapeOut α :=
  let rl := _rate_limit st.lastCall kind now
  match attemptLoop oracle none with
  | (some d, _, n) =>
      ⟨⟨some d, wall, false, none⟩,
        fun k => if k = key then some (fin, d) else st.cache k,
        rl.2, n, true⟩
  | (none, lastErr, n) =>
      match st.cache key with
      | some (_, d) =>
          ⟨⟨some d, wall, true, lastErr⟩, st.cache, rl.2, n, true⟩
      | none =>
          ⟨⟨none, wall, true, some (orScrapeFailed lastErr)⟩, st.cache,
            rl.2, n, true⟩

/-- TTL gate shared by the two scrapers (lines 110–115 and 180–185): serve
the cached payload not-stale and untouched state when its age is below the
TTL, otherwise take the miss path. -/
def scrapeCore {α : Type} (key kind : String) (now fin wall : Int)
    (st : RealtimeState α) (oracle : List (Except String α)) :
    ScrapeOut α :=
  match st.cache key with
  | some (t, d) =>
      if now - t < _TTL_SECONDS then
        ⟨⟨some d, wall, false, none⟩, st.cache, st.lastCall, 0, false⟩
      else scrapeMiss key kind now fin wall st oracle
  | none => scrapeMiss key kind now fin wall st oracle

/-- Source: `_scrape_review` — summary, rate-limit kind `review`,
appended section `REVIEW`. -/
def _scrape_review {α : Type} (gamecenter_url : String)
    (now fin wall : Int) (st : RealtimeState α)
    (oracle : List (Except String α)) : ScrapeOut α :=
  scrapeCore (sectionUrl gamecenter_url "REVIEW") "review" now fin wall st
    oracle

/-- Source: `_scrape_lineup` — roster, rate-limit kind `preview`,
appended section `PREVIEW`. -/
def _scrape_lineup {α : Type} (gamecenter_url : String)
    (now fin wall : Int) (st : RealtimeState α)
    (oracle : List (Except String α)) : ScrapeOut α :=
  scrapeCore (sectionUrl gamecenter_url "PREVIEW") "preview" now fin wall st
    oracle

theorem scrapeCore_hit {α : Type} {key : String} (kind : String)
    {now : Int} (fin wall : Int) {st : RealtimeState α}
    (oracle : List (Except String α)) {t : Int} {d : α}
    (h : st.cache key = some (t, d)) (hf : now - t < _TTL_SECONDS) :
    scrapeCore key kind now fin wall st oracle =
      ⟨⟨some d, wall, false, none⟩, st.cache, st.lastCall, 0, false⟩ := by
  unfold scrapeCore
  rw [h]
  simp [hf]

theorem scrapeCore_miss_none {α : Type} {key : String} (kind : String)
    (now fin wall : Int) {st : RealtimeState α}
    (oracle : List (Except String α)) (h : st.cache key = none) :
    scrapeCore key kind now fin wall st oracle =
      scrapeMiss key kind now fin wall st oracle := by
  unfold scrapeCore
  rw [h]

theorem scrapeCore_miss_stale {α : Type} {key : String} (kind : String)
    {now : Int} (fin wall : Int) {st : RealtimeState α}
    (oracle : List (Except String α)) {t : Int} {d : α}
    (h : st.cache key = some (t, d)) (hf : _TTL_SECONDS ≤ now - t) :
    scrapeCore key kind now fin wall st oracle =
      scrapeMiss key kind now fin wall st oracle := by
  unfold scrapeCore
  rw [h]
  simp [not_lt.mpr hf]

theorem scrapeMiss_firstOk {α : Type} (key kind : String)
    (now fin wall : Int) (st : RealtimeState α) (d : α)
    (rest : List (Except String α)) :
    scrapeMiss key kind now fin wall st (Except.ok d :: rest) =
      ⟨⟨some d, wall, false, none⟩,
        fun k => if k = key then some (fin, d) else st.cache k,
        (_rate_limit st.lastCall kind now).2, 1, true⟩ := rfl

theorem scrapeMiss_allErr_cached {α : Type} {key : String} (kind : String)
    (now fin wall : Int) {st : RealtimeState α} {t : Int} {d : α}
    (e1 e2 e3 : String) (h : st.cache key = some (t, d)) :
    scrapeMiss key kind now fin wall st
      [Except.error e1, Except.error e2, Except.error e3] =
      ⟨⟨some d, wall, true, some e3⟩, st.cache,
        (_rate_limit st.lastCall kind now).2, 3, true⟩ := by
  unfold scrapeMiss
  rw [show (attemptLoop
      [Except.error e1, Except.error e2, Except.error e3]
      (none : Option String)) =
      ((none : Option α), some e3, 3) from rfl]
  rw [h]

theorem scrapeMiss_allErr_nocache {α : Type} {key : String} (kind : String)
    (now fin wall : Int) {st : RealtimeState α}
    (e1 e2 e3 : String) (h : st.cache key = none) :
    scrapeMiss key kind now fin wall st
      [Except.error e1, Except.error e2, Except.error e3] =
      ⟨⟨(none : Option α), wall, true, some (orScrapeFailed (some e3))⟩,
        st.cache, (_rate_limit st.lastCall kind now).2, 3, true⟩ := by
  unfold scrapeMiss
  rw [show (attemptLoop
      [Except.error e1, Except.error e2, Except.error e3]
      (none : Option String)) =
      ((none : Option α), some e3, 3) from rfl]
  rw [h]

/-- Claim C5: a cache entry younger than the TTL is served as-is — payload
unchanged, not-stale, no error, no fetch attempt dispatched, rate limiter
untouched — for both detail kinds; and a miss-then-succeed call followed
within the TTL by a second call for the same key returns the identical
payload not-stale while dispatching exactly one outbound request in
total. -/
theorem C5_ttl_cache_bounds_fetches :
    (∀ (α : Type) (url : String) (now fin wall t : Int) (d : α)
      (st : RealtimeState α) (oracle : List (Except String α)),
      st.cache (sectionUrl url "REVIEW") = some (t, d) →
      now - t < _TTL_SECONDS →
      _scrape_review url now fin wall st oracle =
        ⟨⟨some d, wall, false, none⟩, st.cache, st.lastCall, 0, false⟩) ∧
    (∀ (α : Type) (url : String) (now fin wall t : Int) (d : α)
      (st : RealtimeState α) (oracle : List (Except String α)),
      st.cache (sectionUrl url "PREVIEW") = some (t, d) →
      now - t < _TTL_SECONDS →
      _scrape_lineup url now fin wall st oracle =
        ⟨⟨some d, wall, false, none⟩, st.cache, st.lastCall, 0, false⟩) ∧
    (∀ (α : Type) (url : String) (now1 fin1 wall1 now2 fin2 wall2 : Int)
      (d : α) (rest oracle2 : List (Except String α))
      (st : RealtimeState α),
      st.cache (sectionUrl url "REVIEW") = none →
      now2 - fin1 < _TTL_SECONDS →
      (_scrape_review url now1 fin1 wall1 st
          (Except.ok d :: rest)).result.data = some d ∧
      (_scrape_review url now1 fin1 wall1 st
          (Except.ok d :: rest)).dispatched = 1 ∧
      _scrape_review url now2 fin2 wall2
          ⟨(_scrape_review url now1 fin1 wall1 st
              (Except.ok d :: rest)).cache,
            (_scrape_review url now1 fin1 wall1 st
              (Except.ok d :: rest)).lastCall⟩ oracle2 =
        ⟨⟨some d, wall2, false, none⟩,
          (_scrape_review url now1 fin1 wall1 st
            (Except.ok d :: rest)).cache,
          (_scrape_review url now1 fin1 wall1 st
            (Except.ok d :: rest)).lastCall, 0, false⟩) := by
  refine ⟨?_, ?_, ?_⟩
  · intro α url now fin wall t d st oracle h hf
    exact scrapeCore_hit "review" fin wall oracle h hf
  · intro α url now fin wall t d st oracle h hf
    exact scrapeCore_hit "preview" fin wall oracle h hf
  · intro α url now1 fin1 wall1 now2 fin2 wall2 d rest oracle2 st h hf
    have h1 : _scrape_review url now1 fin1 wall1 st (Except.ok d :: rest) =
        ⟨⟨some d, wall1, false, none⟩,
          fun k => if k = sectionUrl url "REVIEW" then some (fin1, d)
            else st.cache k,
          (_rate_limit st.lastCall "review" now1).2, 1, true⟩ := by
      unfold _scrape_review
      rw [scrapeCore_miss_none "review" now1 fin1 wall1 _ h]
      exact scrapeMiss_firstOk _ _ _ _ _ _ _ _
    refine ⟨by rw [h1], by rw [h1], ?_⟩
    rw [h1]
    unfold _scrape_review
    exact scrapeCore_hit "review" fin2 wall2 oracle2 (by simp) hf

/-- Witness for C5 at concrete inputs: payload type `Nat`, a cache entry of
age 5 seconds for reference "u" is a pure hit. -/
theorem C5_ttl_cache_bounds_fetches_witness :
    _scrape_review "u" 5 5 99
      ⟨fun k => if k = sectionUrl "u" "REVIEW" then some (0, 7) else none,
        fun _ => none⟩ [] =
      ⟨⟨some 7, 99, false, none⟩,
        fun k => if k = sectionUrl "u" "REVIEW" then some (0, 7) else none,
        fun _ => none, 0, false⟩ :=
  C5_ttl_cache_bounds_fetches.1 Nat "u" 5 5 99 0 7
    ⟨fun k => if k = sectionUrl "u" "REVIEW" then some (0, 7) else none,
      fun _ => none⟩ [] (by simp) (by decide)

/-- Claim C2: when all three attempts fail (here with error texts `e1, e2,
e3`) on a stale-or-absent cache, the fetch never raises: it returns a
stale outcome with three dispatched attempts and an untouched cache; with
a cache entry however old, the old payload is returned with the last-seen
error attached; with no entry, the payload is `none` and a non-null error
is returned — the generic `scrape_failed` when the captured text is
empty.  Both detail kinds behave alike. -/
theorem C2_failure_encoded_in_outcome :
    (∀ (α : Type) (url : String) (now fin wall t : Int) (d : α)
      (st : RealtimeState α) (e1 e2 e3 : String),
      st.cache (sectionUrl url "REVIEW") = some (t, d) →
      _TTL_SECONDS ≤ now - t →
      _scrape_review url now fin wall st
          [Except.error e1, Except.error e2, Except.error e3] =
        ⟨⟨some d, wall, true, some e3⟩, st.cache,
          (_rate_limit st.lastCall "review" now).2, 3, true⟩) ∧
    (∀ (α : Type) (url : String) (now fin wall : Int)
      (st : RealtimeState α) (e1 e2 e3 : String),
      st.cache (sectionUrl url "REVIEW") = none →
      _scrape_review url now fin wall st
          [Except.error e1, Except.error e2, Except.error e3] =
        ⟨⟨(none : Option α), wall, true, some (orScrapeFailed (some e3))⟩,
          st.cache, (_rate_limit st.lastCall "review" now).2, 3, true⟩) ∧
    (∀ (α : Type) (url : String) (now fin wall t : Int) (d : α)
      (st : RealtimeState α) (e1 e2 e3 : String),
      st.cache (sectionUrl url "PREVIEW") = some (t, d) →
      _TTL_SECONDS ≤ now - t →
      _scrape_lineup url now fin wall st
          [Except.error e1, Except.error e2, Except.error e3] =
        ⟨⟨some d, wall, true, some e3⟩, st.cache,
          (_rate_limit st.lastCall "preview" now).2, 3, true⟩) ∧
    (∀ (α : Type) (url : String) (now fin wall : Int)
      (st : RealtimeState α) (e1 e2 e3 : String),
      st.cache (sectionUrl url "PREVIEW") = none →
      _scrape_lineup url now fin wall st
          [Except.error e1, Except.error e2, Except.error e3] =
        ⟨⟨(none : Option α), wall, true, some (orScrapeFailed (some e3))⟩,
          st.cache, (_rate_limit st.lastCall "preview" now).2, 3, true⟩) ∧
    (orScrapeFailed (some "") = "scrape_failed" ∧
      orScrapeFailed none = "scrape_failed") := by
  refine ⟨?_, ?_, ?_, ?_, ?_⟩
  · intro α url now fin wall t d st e1 e2 e3 h hstale
    unfold _scrape_review
    rw [scrapeCore_miss_stale "review" fin wall _ h hstale]
    exact scrapeMiss_allErr_cached "review" now fin wall e1 e2 e3 h
  · intro α url now fin wall st e1 e2 e3 h
    unfold _scrape_review
    rw [scrapeCore_miss_none "review" now fin wall _ h]
    exact scrapeMiss_allErr_nocache "review" now fin wall e1 e2 e3 h
  · intro α url now fin wall t d st e1 e2 e3 h hstale
    unfold _scrape_lineup
    rw [scrapeCore_miss_stale "preview" fin wall _ h hstale]
    exact scrapeMiss_allErr_cached "preview" now fin wall e1 e2 e3 h
  · intro α url now fin wall st e1 e2 e3 h
    unfold _scrape_lineup
    rw [scrapeCore_miss_none "preview" now fin wall _ h]
    exact scrapeMiss_allErr_nocache "preview" now fin wall e1 e2 e3 h
  · exact ⟨rfl, rfl⟩

/-- Witness for C2 at concrete inputs: payload type `Nat`, empty cache,
three failed attempts; the outcome is stale with payload `none` and the
last error text attached. -/
theorem C2_failure_encoded_in_outcome_witness :
    _scrape_review "u" 0 0 99 ⟨fun _ => none, fun _ => none⟩
        [Except.error "boom1", Except.error "boom2", Except.error "boom3"] =
      ⟨⟨(none : Option Nat), 99, true, some (orScrapeFailed (some "boom3"))⟩,
        fun _ => none,
        (_rate_limit (fun _ => none) "review" 0).2, 3, true⟩ :=
  C2_failure_encoded_in_outcome.2.1 Nat "u" 0 0 99
    ⟨fun _ => none, fun _ => none⟩ "boom1" "boom2" "boom3" rfl

/-- Claim C9: with a recorded last dispatch at `t`, the instant of the next
dispatch (`now` plus the slept wait, which the function also records as the
new last-call stamp) is at least `_MIN_INTERVAL` after `t`; when less than
the interval has elapsed the call sleeps exactly the remainder, otherwise
it sleeps nothing.  The limiter state is keyed by detail kind only, so this
holds independently of which reference is fetched. -/
theorem C9_rate_limit_min_spacing :
    ∀ (lastCall : String → Option Int) (key : String) (now t : Int),
      lastCall key = some t →
      _MIN_INTERVAL ≤ now + (_rate_limit lastCall key now).1 - t ∧
      (now - t < _MIN_INTERVAL →
        (_rate_limit lastCall key now).1 = _MIN_INTERVAL - (now - t)) ∧
      (_MIN_INTERVAL ≤ now - t → (_rate_limit lastCall key now).1 = 0) ∧
      (_rate_limit lastCall key now).2 key =
        some (now + (_rate_limit lastCall key now).1) := by
  intro lastCall key now t h
  have hw : (_rate_limit lastCall key now).1 =
      max (_MIN_INTERVAL - (now - t)) 0 := by
    simp [_rate_limit, rateLimitWait, h]
  have hm : (_rate_limit lastCall key now).2 key =
      some (now + (_rate_limit lastCall key now).1) := by
    simp [_rate_limit]
  refine ⟨?_, ?_, ?_, hm⟩
  · rw [hw]
    rcases le_total (_MIN_INTERVAL - (now - t)) 0 with h0 | h0
    · rw [max_eq_right h0]; omega
    · rw [max_eq_left h0]; omega
  · intro hlt
    rw [hw, max_eq_left (by omega)]
  · intro hge
    rw [hw, max_eq_right (by omega)]

/-- Witness for C9 at concrete inputs: last dispatch of kind "review" at
second 10, next call at second 10 (no time elapsed): the call sleeps the
whole interval and the stamp advances to 11. -/
theorem C9_rate_limit_min_spacing_witness :
    _MIN_INTERVAL ≤ 10 + (_rate_limit
        (fun k => if k = "review" then some 10 else none) "review" 10).1
        - 10 ∧
    (_rate_limit (fun k => if k = "review" then some 10 else none)
        "review" 10).1 = _MIN_INTERVAL - (10 - 10) ∧
    (_rate_limit (fun k => if k = "review" then some 10 else none)
        "review" 10).2 "review" =
      some (10 + (_rate_limit
        (fun k => if k = "review" then some 10 else none) "review" 10).1) := by
  have h := C9_rate_limit_min_spacing
    (fun k => if k = "review" then some 10 else none) "review" 10 10
    (by simp)
  exact ⟨h.1, h.2.1 (by decide), h.2.2.2⟩

/-- Claim C10: a reference already containing the text `section=` is used
unchanged as the cache key by both detail kinds, so the two kinds share one
entry: after a successful summary fetch stores the payload under the bare
reference, a roster fetch within the TTL returns that payload not-stale
with no outbound dispatch.  When the reference lacks `section=`, the two
kinds get distinct keys (`REVIEW` vs `PREVIEW` appended). -/
theorem C10_section_parameter_shares_cache_key :
    (∀ url : String, hasSubstr url "section=" = true →
      sectionUrl url "REVIEW" = url ∧ sectionUrl url "PREVIEW" = url) ∧
    (∀ url : String, hasSubstr url "section=" = false →
      sectionUrl url "REVIEW" ≠ sectionUrl url "PREVIEW") ∧
    (∀ (α : Type) (url : String) (now1 fin1 wall1 now2 fin2 wall2 : Int)
      (d : α) (rest oracle2 : List (Except String α))
      (st : RealtimeState α),
      hasSubstr url "section=" = true →
      st.cache url = none →
      now2 - fin1 < _TTL_SECONDS →
      (_scrape_review url now1 fin1 wall1 st
          (Except.ok d :: rest)).cache url = some (fin1, d) ∧
      _scrape_lineup url now2 fin2 wall2
          ⟨(_scrape_review url now1 fin1 wall1 st
              (Except.ok d :: rest)).cache,
            (_scrape_review url now1 fin1 wall1 st
              (Except.ok d :: rest)).lastCall⟩ oracle2 =
        ⟨⟨some d, wall2, false, none⟩,
          (_scrape_review url now1 fin1 wall1 st
            (Except.ok d :: rest)).cache,
          (_scrape_review url now1 fin1 wall1 st
            (Except.ok d :: rest)).lastCall, 0, false⟩) := by
  have hkey : ∀ (url sec : String), hasSubstr url "section=" = true →
      sectionUrl url sec = url := by
    intro url sec h
    unfold sectionUrl
    rw [h]
    simp
  refine ⟨?_, ?_, ?_⟩
  · intro url h
    exact ⟨hkey url "REVIEW" h, hkey url "PREVIEW" h⟩
  · intro url h heq
    have hlen := congrArg String.length heq
    unfold sectionUrl at hlen
    rw [h] at hlen
    simp only [Bool.false_eq_true, if_false, String.length_append] at hlen
    have h6 : ("REVIEW" : String).length = 6 := rfl
    have h7 : ("PREVIEW" : String).length = 7 := rfl
    rw [h6, h7] at hlen
    omega
  · intro α url now1 fin1 wall1 now2 fin2 wall2 d rest oracle2 st h hc hf
    have h1 : _scrape_review url now1 fin1 wall1 st (Except.ok d :: rest) =
        ⟨⟨some d, wall1, false, none⟩,
          fun k => if k = url then some (fin1, d) else st.cache k,
          (_rate_limit st.lastCall "review" now1).2, 1, true⟩ := by
      unfold _scrape_review
      rw [hkey url "REVIEW" h]
      rw [scrapeCore_miss_none "review" now1 fin1 wall1 _ hc]
      exact scrapeMiss_firstOk _ _ _ _ _ _ _ _
    refine ⟨by rw [h1]; simp, ?_⟩
    rw [h1]
    unfold _scrape_lineup
    rw [hkey url "PREVIEW" h]
    exact scrapeCore_hit "preview" fin2 wall2 oracle2 (by simp) hf

/-- Witness for C10 at a concrete reference that already carries a
`section=` parameter: both kinds key on the unchanged URL. -/
theorem C10_section_parameter_shares_cache_key_witness :
    sectionUrl "Main.aspx?gameId=1&section=REVIEW" "REVIEW" =
      "Main.aspx?gameId=1&section=REVIEW" ∧
    sectionUrl "Main.aspx?gameId=1&section=REVIEW" "PREVIEW" =
      "Main.aspx?gameId=1&section=REVIEW" :=
  C10_section_parameter_shares_cache_key.1
    "Main.aspx?gameId=1&section=REVIEW" (by decide)

/-- One entry of the schedule listing handed to `_select_game`; source: the
dict built by `get_schedule_async` in `service.py`. -/
structure ScheduleGame where
  date : String
  time : Option String
  away : String
  home : String
  score : Option String
  stadium : Option String
  tv : Option String
  radio : Option String
  note : Option String
  gamecenter_url : Option String
deriving DecidableEq

/-- Python `str.strip()`: drop leading and trailing whitespace. -/
def pyStrip (s : String) : String :=
  String.mk
    (((s.toList.dropWhile Char.isWhitespace).reverse.dropWhile
      Char.isWhitespace).reverse)

/-- Split a character list at every occurrence of `sep`
(accumulator-based worker). -/
def splitOnCharAux (sep : Char) : List Char → List Char → List (List Char)
  | [], acc => [acc.reverse]
  | c :: cs, acc =>
      if c = sep then acc.reverse :: splitOnCharAux sep cs []
      else splitOnCharAux sep cs (c :: acc)

/-- Split a character list at every occurrence of `sep`. -/
def splitOnChar (sep : Char) (s : List Char) : List (List Char) :=
  splitOnCharAux sep s []

/-- First `gameId=` pair with a non-empty value among the query pairs
(`parse_qs` drops blank values by default). -/
def findGameId : List (List Char) → Option String
  | [] => none
  | p :: ps =>
      if startsWithChars p ("gameId=".toList) && decide (7 < p.length) then
        some (String.mk (p.drop 7))
      else findGameId ps

/-- Modelled from the spec: `_select_game` imports `_extract_game_id` from
`service.py`, but no definition of it appears anywhere under the sources —
only its callers do.  Per the spec's data model the external identifier
used for detail lookup is carried by the detail-page reference, whose
`gameId` query parameter holds it (compare `_extract_gamecenter_info` in
`scraper.py`, which parses the same reference with `urlparse`/`parse_qs`).
The model extracts the value of the first non-empty `gameId` query
parameter, `none` when the reference is absent or carries no such
parameter. -/
def _extract_game_id : Option String → Option String
  | none => none
  | some u =>
      match splitOnChar '?' u.toList with
      | [] => none
      | _ :: rest => findGameId (splitOnChar '&' (List.intercalate ['?'] rest))

/-- Source: `realtime_playwright.py`, `_select_game`.  `if game_id:` and
`if team:` are Python truthiness tests: `None` and the empty string both
fall through.  The team branch strips the team text, keeps the records
having it as either participant and succeeds only on a unique match; with
neither argument the first record (or `none`) is returned. -/
def _select_game (games : List ScheduleGame) (team : Option String)
    (game_id : Option String) : Option ScheduleGame :=
  if game_id.getD "" ≠ "" then
    games.find? (fun g => _extract_game_id g.gamecenter_url == game_id)
  else if team.getD "" ≠ "" then
    let t := pyStrip (team.getD "")
    let ms := games.filter (fun g => t = g.away || t = g.home)
    if ms.length = 1 then ms.head? else none
  else
    games.head?

/-- Selection example: 14:00 game LG at OB, identifier `AAA1` in the
reference. -/
def sgA : ScheduleGame :=
  ⟨"2025-03-30", some "14:00", "LG", "OB", none, none, none, none, none,
    some "Main.aspx?gameId=AAA1&section=REVIEW"⟩

/-- Selection example: 18:30 game LG at KT, identifier `BBB2` in the
reference. -/
def sgB : ScheduleGame :=
  ⟨"2025-03-30", some "18:30", "LG", "KT", none, none, none, none, none,
    some "Main.aspx?gameId=BBB2"⟩

/-- Claim C8: with a (non-empty) identifier, selection returns the first
record whose extracted identifier matches, or no match; with only a team,
it returns the unique record having that (stripped) team as either
participant and no match on zero or several candidates; with neither, the
first record of the listing or none when it is empty.  On the ambiguity
example — two records both involving LG — team selection yields no match
while either identifier retrieves its exact record.  No case throws. -/
theorem C8_selection_policy :
    (∀ (games : List ScheduleGame) (team : Option String) (gid : String),
      gid ≠ "" →
      _select_game games team (some gid) =
        games.find?
          (fun g => _extract_game_id g.gamecenter_url == some gid)) ∧
    (∀ (games : List ScheduleGame) (gid0 : Option String) (t0 : String),
      gid0.getD "" = "" → t0 ≠ "" →
      ((games.filter (fun g => pyStrip t0 = g.away ||
          pyStrip t0 = g.home)).length = 1 →
        _select_game games (some t0) gid0 =
          (games.filter (fun g => pyStrip t0 = g.away ||
            pyStrip t0 = g.home)).head?) ∧
      ((games.filter (fun g => pyStrip t0 = g.away ||
          pyStrip t0 = g.home)).length ≠ 1 →
        _select_game games (some t0) gid0 = none)) ∧
    (∀ (games : List ScheduleGame) (team gid0 : Option String),
      team.getD "" = "" → gid0.getD "" = "" →
      _select_game games team gid0 = games.head?) ∧
    (_select_game [sgA, sgB] (some "LG") none = none ∧
      _select_game [sgA, sgB] none (some "AAA1") = some sgA ∧
      _select_game [sgA, sgB] none (some "BBB2") = some sgB) := by
  refine ⟨?_, ?_, ?_, ?_⟩
  · intro games team gid hgid
    unfold _select_game
    rw [if_pos]
    simpa using hgid
  · intro games gid0 t0 hgid ht
    constructor
    · intro hone
      unfold _select_game
      rw [if_neg (by simpa using hgid), if_pos (by simpa using ht)]
      simp only [Option.getD]
      rw [if_pos hone]
    · intro hnot
      unfold _select_game
      rw [if_neg (by simpa using hgid), if_pos (by simpa using ht)]
      simp only [Option.getD]
      rw [if_neg hnot]
  · intro games team gid0 hteam hgid
    unfold _select_game
    rw [if_neg (by simpa using hgid), if_neg (by simpa using hteam)]
  · refine ⟨?_, ?_, ?_⟩ <;> decide

/-- Witness for C8 at concrete inputs: team-only selection of "LG " (with
trailing blank, stripped) over the two-record example list is ambiguous,
hence no match. -/
theorem C8_selection_policy_witness :
    _select_game [sgA, sgB] (some "LG ") none = none := by
  have h := (C8_selection_policy.2.1 [sgA, sgB] none "LG "
    (by decide) (by decide)).2
  exact h (by decide)
